import Mathlib

/-!
# Verification of the session-controller request handlers

Shallow embedding of `src/controllers/sessionController.js` (and of the
variant controller file shipped alongside it) of the whatsapp-api
repository.  The HTTP response object is modelled as an explicit state
(`Res`) carrying the `headersSent` and `writableEnded` flags together with
the trace of transport actions performed on it; each handler becomes a
total Lean function from the outcomes of its collaborator calls (session
setup, validation, reload, delete, flush, the nested-object wait) and the
initial response state to the final response state.

Collaborator calls that are awaited are suspension points of the
single-threaded cooperative scheduling model; a Boolean "interference"
parameter at each suspension point models the possibility, acknowledged by
the design document, that code outside the handler commits headers on the
underlying transport while the handler is suspended there.
-/

namespace SessionController

/-- Shape of the JSON bodies the handlers emit. -/
inductive Body where
  /-- `{success: true, message: m}` -/
  | successMsg (message : String)
  /-- `{success: false, message: m}` — the error payload shape. -/
  | errorMsg (message : String)
  /-- `{success: true, qr: q}` -/
  | qrPayload (qr : String)
  /-- `res.json(sessionData)` / `res.json(validation)` passthrough of a
  collaborator-produced object. -/
  | passthrough (success : Bool) (message : String)
  deriving DecidableEq, Repr

/-- A terminal transport action. -/
inductive Action where
  /-- `res.json(...)`, `res.status(s).json(...)` or `sendErrorResponse`:
  commits status, headers and a JSON body. -/
  | jsonWrite (status : Nat) (body : Body)
  /-- `res.writeHead(status, headers)`: commits status and headers. -/
  | headWrite (status : Nat) (contentType : String)
  /-- `stream.pipe(res)` completing: streams the body bytes and ends the
  response. -/
  | streamWrite (data : String)
  /-- `res.end()` with no further data. -/
  | endStream
  deriving DecidableEq, Repr

/-- One recorded transport action, together with the values of the
`headersSent` and `writableEnded` flags at the moment it was performed. -/
structure Event where
  act : Action
  headersSentBefore : Bool
  writableEndedBefore : Bool
  deriving DecidableEq, Repr

/-- The response object: its two observable flags and the trace of actions
performed on it by the handler under scrutiny.  External interference
(writes by code outside the handler) flips `headersSent` without adding to
the trace, so the trace lists exactly the handler's own transport
effects. -/
structure Res where
  headersSent : Bool
  writableEnded : Bool
  trace : List Event
  deriving DecidableEq, Repr

/-- A fresh response object, as handed to a handler for a new request. -/
def Res.fresh : Res := ⟨false, false, []⟩

/-- `res.json(body)` with an explicit status (Express defaults to 200 when
no `res.status` call preceded): commits status, headers and body and ends
the response. -/
def resJson (status : Nat) (body : Body) (r : Res) : Res :=
  { headersSent := true, writableEnded := true,
    trace := r.trace ++ [⟨Action.jsonWrite status body, r.headersSent, r.writableEnded⟩] }

/-- Modelled from the spec: `sendErrorResponse(res, status, message)` lives
in `src/utils.js`, which is not among the provided sources; the design
document defines it as writing the error body `{success:false, message}`
with the caller-chosen status code as one terminal JSON response. -/
def sendErrorResponse (r : Res) (status : Nat) (message : String) : Res :=
  resJson status (Body.errorMsg message) r

/-- `res.writeHead(status, {'Content-Type': ct})`: sends headers
immediately; the body is still open. -/
def writeHead (status : Nat) (contentType : String) (r : Res) : Res :=
  { headersSent := true, writableEnded := r.writableEnded,
    trace := r.trace ++ [⟨Action.headWrite status contentType, r.headersSent, r.writableEnded⟩] }

/-- A pipe that runs to completion: streams the data and ends the
response. -/
def pipeTo (data : String) (r : Res) : Res :=
  { headersSent := true, writableEnded := true,
    trace := r.trace ++ [⟨Action.streamWrite data, r.headersSent, r.writableEnded⟩] }

/-- `res.end()`. -/
def endRes (r : Res) : Res :=
  { headersSent := r.headersSent, writableEnded := true,
    trace := r.trace ++ [⟨Action.endStream, r.headersSent, r.writableEnded⟩] }

/-- External interference at a suspension point: when `b` is true, code
outside the handler commits headers on the transport while the handler is
suspended (the handler's own trace is unaffected). -/
def extInterfere (b : Bool) (r : Res) : Res :=
  if b then { r with headersSent := true } else r

/-- Whether an action commits status/headers/body to the transport
(a terminal response write); `res.end()` alone writes no application
data. -/
def isWrite : Action → Bool
  | Action.endStream => false
  | _ => true

/-- Whether an action is a JSON body write. -/
def isJson : Action → Bool
  | Action.jsonWrite _ _ => true
  | _ => false

/-- Whether an action is a bare `res.end()`. -/
def isEnd : Action → Bool
  | Action.endStream => true
  | _ => false

/-- Number of terminal response writes in a trace. -/
def writeCount (t : List Event) : Nat :=
  (t.filter fun ev => isWrite ev.act).length

/-- Every terminal write in the trace was performed while the transport's
`headersSent` flag was still false. -/
def allWritesUnsent (t : List Event) : Bool :=
  t.all fun ev => !isWrite ev.act || !ev.headersSentBefore

/-- The object returned by `setupSession(sessionId)`:
`{success, message, client?}`.  `clientPresent` records whether the
`client` field is a usable object (the variant controller checks it). -/
structure SetupReturn where
  success : Bool
  message : String
  clientPresent : Bool
  deriving DecidableEq, Repr

/-- The object returned by `validateSession(sessionId)`; the handlers only
inspect its `message` field and pass the whole object through to
`res.json`. -/
structure Validation where
  success : Bool
  message : String
  deriving DecidableEq, Repr

/-- `startSession` from `src/controllers/sessionController.js`.

Inputs: the outcome of the synchronous `setupSession` call (`Except.error`
models it throwing), the outcome of the awaited
`waitForNestedObject(client, 'pupPage')` call, and the interference flag
for that await (the only suspension point of the handler).  Returns the
final response state together with whether `waitForNestedObject` was
invoked. -/
def startSession (setup : Except String SetupReturn) (wait : Except String Unit)
    (iW : Bool) (r0 : Res) : Res × Bool :=
  match setup with
  | Except.error e =>
      (if r0.headersSent then r0 else sendErrorResponse r0 500 e, false)
  | Except.ok s =>
      if s.success then
        let r1 := extInterfere iW r0
        match wait with
        | Except.ok _ =>
            (if r1.headersSent then r1
             else resJson 200 (Body.successMsg s.message) r1, true)
        | Except.error we =>
            (if r1.headersSent then r1
             else sendErrorResponse r1 500 we, true)
      else
        (sendErrorResponse r0 422 s.message, false)

/-- `startSession` from the variant controller file: same shape, plus an
entry re-check of `headersSent` after `setupSession`, an explicit guard on
the 422 write, and a thrown error when `setupSession` returned no client
object (caught by the inner catch). -/
def startSessionVariant (setup : Except String SetupReturn) (wait : Except String Unit)
    (iW : Bool) (r0 : Res) : Res × Bool :=
  match setup with
  | Except.error e =>
      (if r0.headersSent then r0 else sendErrorResponse r0 500 e, false)
  | Except.ok s =>
      if r0.headersSent then (r0, false)
      else if s.success then
        if s.clientPresent then
          let r1 := extInterfere iW r0
          match wait with
          | Except.ok _ =>
              (if r1.headersSent then r1
               else resJson 200 (Body.successMsg s.message) r1, true)
          | Except.error we =>
              (if r1.headersSent then r1
               else sendErrorResponse r1 500 we, true)
        else
          (if r0.headersSent then r0
           else sendErrorResponse r0 500 "setupSession did not return a client object.", false)
      else
        (if r0.headersSent then r0
         else sendErrorResponse r0 422 s.message, false)

/-- `statusSession`: awaits `validateSession` (outcome `validation`,
interference `iV` at that await) and responds with the session data, or
with a guarded 500 on a thrown error. -/
def statusSession (validation : Except String Validation) (iV : Bool) (r0 : Res) : Res :=
  let r1 := extInterfere iV r0
  match validation with
  | Except.ok v =>
      if r1.headersSent then r1 else resJson 200 (Body.passthrough v.success v.message) r1
  | Except.error e =>
      if r1.headersSent then r1 else sendErrorResponse r1 500 e

/-- `restartSession`: awaits `validateSession` (outcome `validation`,
interference `iV`), checks `headersSent` once, passes a not-found
validation straight through, otherwise awaits `reloadSession` (outcome
`reloadR`, interference `iR`) and — without re-checking `headersSent` —
writes the success body; a thrown error reaches the guarded catch. -/
def restartSession (validation : Except String Validation)
    (reloadR : Except String Unit) (iV iR : Bool) (r0 : Res) : Res :=
  let r1 := extInterfere iV r0
  match validation with
  | Except.error e =>
      if r1.headersSent then r1 else sendErrorResponse r1 500 e
  | Except.ok v =>
      if r1.headersSent then r1
      else if v.message = "session_not_found" then
        resJson 200 (Body.passthrough v.success v.message) r1
      else
        let r2 := extInterfere iR r1
        match reloadR with
        | Except.ok _ => resJson 200 (Body.successMsg "Restarted successfully") r2
        | Except.error e =>
            if r2.headersSent then r2 else sendErrorResponse r2 500 e

/-- `terminateSession`: same shape as `restartSession` with
`deleteSession(sessionId, validation)` in place of `reloadSession` and the
"Logged out successfully" success body. -/
def terminateSession (validation : Except String Validation)
    (deleteR : Except String Unit) (iV iD : Bool) (r0 : Res) : Res :=
  let r1 := extInterfere iV r0
  match validation with
  | Except.error e =>
      if r1.headersSent then r1 else sendErrorResponse r1 500 e
  | Except.ok v =>
      if r1.headersSent then r1
      else if v.message = "session_not_found" then
        resJson 200 (Body.passthrough v.success v.message) r1
      else
        let r2 := extInterfere iD r1
        match deleteR with
        | Except.ok _ => resJson 200 (Body.successMsg "Logged out successfully") r2
        | Except.error e =>
            if r2.headersSent then r2 else sendErrorResponse r2 500 e

/-- `terminateInactiveSessions`: awaits `flushSessions(true)` (outcome
`flushR`, interference `iF`) and responds with the guarded flush-success
body, or a guarded 500 on a thrown error.  The handler never reads the
session registry itself; the registry only enters through the collaborator
call. -/
def terminateInactiveSessions (flushR : Except String Unit) (iF : Bool) (r0 : Res) : Res :=
  let r1 := extInterfere iF r0
  match flushR with
  | Except.ok _ =>
      if r1.headersSent then r1
      else resJson 200 (Body.successMsg "Flush completed successfully") r1
  | Except.error e =>
      if r1.headersSent then r1 else sendErrorResponse r1 500 e

/-- `terminateAllSessions`: identical to `terminateInactiveSessions` apart
from passing `false` to the external `flushSessions` call. -/
def terminateAllSessions (flushR : Except String Unit) (iF : Bool) (r0 : Res) : Res :=
  let r1 := extInterfere iF r0
  match flushR with
  | Except.ok _ =>
      if r1.headersSent then r1
      else resJson 200 (Body.successMsg "Flush completed successfully") r1
  | Except.error e =>
      if r1.headersSent then r1 else sendErrorResponse r1 500 e

/-- A session as the QR handlers observe it: only its optional `qr`
field. -/
structure Session where
  qr : Option String
  deriving DecidableEq, Repr

/-- The session registry (`sessions`, a `Map` keyed by session id). -/
abbrev Registry := List (String × Session)

/-- `sessions.get(sessionId)`. -/
def getSession (g : Registry) (sid : String) : Option Session :=
  (g.find? fun p => p.1 == sid).map fun p => p.2

/-- JavaScript truthiness of `session.qr`: an absent field and the empty
string are both falsy. -/
def qrTruthy : Option String → Bool
  | none => false
  | some s => !s.isEmpty

/-- The string value of `session.qr` (only consulted on the truthy
branch). -/
def qrText : Option String → String
  | none => ""
  | some s => s

/-- `sessionQrCode` from `src/controllers/sessionController.js`: one
`headersSent` check around the three-way branch; every terminal write goes
through `res.json`, whose status is 200. -/
def sessionQrCode (g : Registry) (sid : String) (r0 : Res) : Res :=
  if r0.headersSent then r0
  else
    match getSession g sid with
    | none => resJson 200 (Body.errorMsg "session_not_found") r0
    | some s =>
        if qrTruthy s.qr then resJson 200 (Body.qrPayload (qrText s.qr)) r0
        else resJson 200 (Body.errorMsg "qr code not ready or already scanned") r0

/-- `sessionQrCode` from the variant controller file: identical except
that the not-found branch responds through `res.status(404).json` and the
not-ready branch through `res.status(200).json`. -/
def sessionQrCodeVariant (g : Registry) (sid : String) (r0 : Res) : Res :=
  if r0.headersSent then r0
  else
    match getSession g sid with
    | none => resJson 404 (Body.errorMsg "session_not_found") r0
    | some s =>
        if qrTruthy s.qr then resJson 200 (Body.qrPayload (qrText s.qr)) r0
        else resJson 200 (Body.errorMsg "qr code not ready or already scanned") r0

/-- Outcome of `qrImage.pipe(res)` once the image headers were written:
either the pipe completes (streaming the bytes and ending the response),
or an error surfaces afterwards in the catch block, with
`endedWhenCaught` recording the `writableEnded` flag at that moment. -/
inductive PipeOutcome where
  | pipeOk
  | errAfterHeaders (message : String) (endedWhenCaught : Bool)
  deriving DecidableEq, Repr

/-- `sessionQrCodeImage` from `src/controllers/sessionController.js`: on a
truthy `qr`, `res.writeHead(200, image/png)` commits the headers and the
image is piped; an error surfacing after that reaches the catch, which —
because `headersSent` is true — only calls `res.end()` when
`writableEnded` is still false. -/
def sessionQrCodeImage (g : Registry) (sid : String) (pipe : PipeOutcome) (r0 : Res) : Res :=
  if r0.headersSent then r0
  else
    match getSession g sid with
    | none => resJson 200 (Body.errorMsg "session_not_found") r0
    | some s =>
        if qrTruthy s.qr then
          let r1 := writeHead 200 "image/png" r0
          match pipe with
          | PipeOutcome.pipeOk => pipeTo (qrText s.qr) r1
          | PipeOutcome.errAfterHeaders m ended =>
              let r2 := { r1 with writableEnded := ended }
              if r2.headersSent then
                if r2.writableEnded then r2 else endRes r2
              else sendErrorResponse r2 500 m
        else resJson 200 (Body.errorMsg "qr code not ready or already scanned") r0

/-- `sessionQrCodeImage` from the variant controller file: an entry guard
ends an already-started response, the not-found branch responds with
status 404, and the rest matches the main file (the variant passes an
explicit `{type:'png'}` to `qr.image`, which is that library's default and
yields the same bytes). -/
def sessionQrCodeImageVariant (g : Registry) (sid : String) (pipe : PipeOutcome) (r0 : Res) : Res :=
  if r0.headersSent then
    if r0.writableEnded then r0 else endRes r0
  else
    match getSession g sid with
    | none => resJson 404 (Body.errorMsg "session_not_found") r0
    | some s =>
        if qrTruthy s.qr then
          let r1 := writeHead 200 "image/png" r0
          match pipe with
          | PipeOutcome.pipeOk => pipeTo (qrText s.qr) r1
          | PipeOutcome.errAfterHeaders m ended =>
              let r2 := { r1 with writableEnded := ended }
              if r2.headersSent then
                if r2.writableEnded then r2 else endRes r2
              else sendErrorResponse r2 500 m
        else resJson 200 (Body.errorMsg "qr code not ready or already scanned") r0

/-- The guarded 500 error write as it appears in a fresh-request trace. -/
def err500 (e : String) : Event :=
  ⟨Action.jsonWrite 500 (Body.errorMsg e), false, false⟩

/-- C1: on a fresh request, every execution of the startSession handler
(both versions) emits at most one terminal response write, every write it
performs happens while the transport's headers-sent flag is false at that
moment, and when no external code commits headers during the awaited
readiness wait, exactly one of the competing finalize attempts
(setup-failure 422, readiness-success 200, wait-error 500, outer-catch
500) performs a write. -/
theorem startSession_exactly_once_response (setup : Except String SetupReturn)
    (wait : Except String Unit) (iW : Bool) :
    writeCount (startSession setup wait iW Res.fresh).1.trace ≤ 1 ∧
    allWritesUnsent (startSession setup wait iW Res.fresh).1.trace = true ∧
    writeCount (startSessionVariant setup wait iW Res.fresh).1.trace ≤ 1 ∧
    allWritesUnsent (startSessionVariant setup wait iW Res.fresh).1.trace = true ∧
    (iW = false →
      writeCount (startSession setup wait iW Res.fresh).1.trace = 1 ∧
      writeCount (startSessionVariant setup wait iW Res.fresh).1.trace = 1) := by
  rcases setup with e | s
  · simp [startSession, startSessionVariant, Res.fresh, sendErrorResponse, resJson,
      writeCount, allWritesUnsent, isWrite]
  · rcases s with ⟨su, msg, cp⟩
    cases su <;> cases cp <;> rcases wait with we | u <;> cases iW <;>
      simp [startSession, startSessionVariant, Res.fresh, sendErrorResponse, resJson,
        extInterfere, writeCount, allWritesUnsent, isWrite]

/-- C1 witness: the property evaluated on a concrete successful run. -/
theorem startSession_exactly_once_response_witness :
    writeCount (startSession (Except.ok ⟨true, "ok", true⟩) (Except.ok ()) false Res.fresh).1.trace = 1 ∧
    writeCount (startSessionVariant (Except.ok ⟨true, "ok", true⟩) (Except.ok ()) false Res.fresh).1.trace = 1 :=
  (startSession_exactly_once_response (Except.ok ⟨true, "ok", true⟩) (Except.ok ()) false).2.2.2.2 rfl

/-- C3: when setupSession reports failure, startSession responds 422 with
that failure message as the error payload, and waitForNestedObject is
never invoked on that request. -/
theorem startSession_setup_failure_short_circuits (s : SetupReturn)
    (wait : Except String Unit) (iW : Bool) (h : s.success = false) :
    (startSession (Except.ok s) wait iW Res.fresh).1.trace =
      [⟨Action.jsonWrite 422 (Body.errorMsg s.message), false, false⟩] ∧
    (startSession (Except.ok s) wait iW Res.fresh).2 = false := by
  simp [startSession, Res.fresh, sendErrorResponse, resJson, h]

/-- C3 witness: concrete failing setup. -/
theorem startSession_setup_failure_short_circuits_witness :
    (startSession (Except.ok ⟨false, "bad", true⟩) (Except.ok ()) false Res.fresh).1.trace =
      [⟨Action.jsonWrite 422 (Body.errorMsg "bad"), false, false⟩] ∧
    (startSession (Except.ok ⟨false, "bad", true⟩) (Except.ok ()) false Res.fresh).2 = false :=
  startSession_setup_failure_short_circuits ⟨false, "bad", true⟩ (Except.ok ()) false rfl

/-- C4: after a successful setup, with headers not yet sent, the wait
outcome determines the response: a resolved wait yields status 200 with
`{success:true, message}` carrying setupSession's message, a rejected wait
yields status 500 with the rejection's message verbatim in the error
payload. -/
theorem startSession_wait_outcome_determines_response (s : SetupReturn)
    (e : String) (h : s.success = true) :
    (startSession (Except.ok s) (Except.ok ()) false Res.fresh).1.trace =
      [⟨Action.jsonWrite 200 (Body.successMsg s.message), false, false⟩] ∧
    (startSession (Except.ok s) (Except.error e) false Res.fresh).1.trace =
      [⟨Action.jsonWrite 500 (Body.errorMsg e), false, false⟩] := by
  simp [startSession, Res.fresh, sendErrorResponse, resJson, extInterfere, h]

/-- C4 witness: concrete successful setup, both wait outcomes. -/
theorem startSession_wait_outcome_determines_response_witness :
    (startSession (Except.ok ⟨true, "m", true⟩) (Except.ok ()) false Res.fresh).1.trace =
      [⟨Action.jsonWrite 200 (Body.successMsg "m"), false, false⟩] ∧
    (startSession (Except.ok ⟨true, "m", true⟩) (Except.error "Timed out") false Res.fresh).1.trace =
      [⟨Action.jsonWrite 500 (Body.errorMsg "Timed out"), false, false⟩] :=
  startSession_wait_outcome_determines_response ⟨true, "m", true⟩ "Timed out" rfl

/-- C2 counterexample: the claim that every terminal write in
restartSession happens only when the headers-sent flag is false at the
moment of the write is false.  On a fresh request whose validation
succeeds, when external code commits headers during the awaited
reloadSession call, the handler still performs the success write — its
recorded headers-sent-at-write flag is true, because the guard was checked
before the await and never re-checked. -/
theorem restartSession_success_write_despite_headers_sent :
    (restartSession (Except.ok ⟨true, "ok"⟩) (Except.ok ()) false true Res.fresh).trace =
      [⟨Action.jsonWrite 200 (Body.successMsg "Restarted successfully"), true, false⟩] ∧
    allWritesUnsent
      (restartSession (Except.ok ⟨true, "ok"⟩) (Except.ok ()) false true Res.fresh).trace = false := by
  exact ⟨rfl, rfl⟩

/-- C2 amended: in restartSession and terminateSession, the not-found and
error writes are performed only under a headers-sent check at the moment
of the write; the success write is guarded only by the check made before
the awaited reloadSession/deleteSession call, so provided no external
write commits headers during that await, every terminal write of either
handler happens while the headers-sent flag is false, and at most one
write is emitted. -/
theorem restart_terminate_writes_guarded (validation : Except String Validation)
    (opR : Except String Unit) (iV : Bool) :
    allWritesUnsent (restartSession validation opR iV false Res.fresh).trace = true ∧
    writeCount (restartSession validation opR iV false Res.fresh).trace ≤ 1 ∧
    allWritesUnsent (terminateSession validation opR iV false Res.fresh).trace = true ∧
    writeCount (terminateSession validation opR iV false Res.fresh).trace ≤ 1 := by
  rcases validation with e | v
  · cases iV <;>
      simp [restartSession, terminateSession, Res.fresh, sendErrorResponse, resJson,
        extInterfere, writeCount, allWritesUnsent, isWrite]
  · rcases opR with e | u <;> cases iV <;>
      by_cases h : v.message = "session_not_found" <;>
      simp [restartSession, terminateSession, Res.fresh, sendErrorResponse, resJson,
        extInterfere, writeCount, allWritesUnsent, isWrite, h]

/-- C7: each handler is a total function of its collaborator outcomes (no
fault propagates past the handler boundary), and on a fresh request every
collaborator-thrown fault is converted into exactly one status-500 error
response carrying the exception's message: validateSession throwing in
statusSession/restartSession/terminateSession, setupSession throwing and
waitForNestedObject rejecting in startSession, reloadSession and
deleteSession throwing after a found validation, and flushSessions
throwing in both bulk-terminate handlers. -/
theorem handlers_convert_collaborator_faults (e : String) (s : SetupReturn)
    (v : Validation) (hs : s.success = true) (hv : v.message ≠ "session_not_found") :
    (statusSession (Except.error e) false Res.fresh).trace = [err500 e] ∧
    (startSession (Except.error e) (Except.ok ()) false Res.fresh).1.trace = [err500 e] ∧
    (startSession (Except.ok s) (Except.error e) false Res.fresh).1.trace = [err500 e] ∧
    (restartSession (Except.error e) (Except.ok ()) false false Res.fresh).trace = [err500 e] ∧
    (restartSession (Except.ok v) (Except.error e) false false Res.fresh).trace = [err500 e] ∧
    (terminateSession (Except.error e) (Except.ok ()) false false Res.fresh).trace = [err500 e] ∧
    (terminateSession (Except.ok v) (Except.error e) false false Res.fresh).trace = [err500 e] ∧
    (terminateInactiveSessions (Except.error e) false Res.fresh).trace = [err500 e] ∧
    (terminateAllSessions (Except.error e) false Res.fresh).trace = [err500 e] := by
  simp [statusSession, startSession, restartSession, terminateSession,
    terminateInactiveSessions, terminateAllSessions, Res.fresh, sendErrorResponse,
    resJson, extInterfere, err500, hs, hv]

/-- C7 witness: a concrete fault message through every handler. -/
theorem handlers_convert_collaborator_faults_witness :
    (statusSession (Except.error "boom") false Res.fresh).trace = [err500 "boom"] ∧
    (startSession (Except.error "boom") (Except.ok ()) false Res.fresh).1.trace = [err500 "boom"] ∧
    (startSession (Except.ok ⟨true, "m", true⟩) (Except.error "boom") false Res.fresh).1.trace = [err500 "boom"] ∧
    (restartSession (Except.error "boom") (Except.ok ()) false false Res.fresh).trace = [err500 "boom"] ∧
    (restartSession (Except.ok ⟨true, "Connected"⟩) (Except.error "boom") false false Res.fresh).trace = [err500 "boom"] ∧
    (terminateSession (Except.error "boom") (Except.ok ()) false false Res.fresh).trace = [err500 "boom"] ∧
    (terminateSession (Except.ok ⟨true, "Connected"⟩) (Except.error "boom") false false Res.fresh).trace = [err500 "boom"] ∧
    (terminateInactiveSessions (Except.error "boom") false Res.fresh).trace = [err500 "boom"] ∧
    (terminateAllSessions (Except.error "boom") false Res.fresh).trace = [err500 "boom"] :=
  handlers_convert_collaborator_faults "boom" ⟨true, "m", true⟩ ⟨true, "Connected"⟩ rfl
    (by decide)

/-- C8: for every registry state, including the empty one, whenever the
external flushSessions call completes without an exception, both
bulk-terminate handlers respond with status 200 and the identical payload
`{success:true, message:"Flush completed successfully"}`, and their final
response states coincide exactly. -/
theorem flush_handlers_uniform_success (g : Registry)
    (flushInactive flushAll : Registry → Except String Unit)
    (h1 : flushInactive g = Except.ok ()) (h2 : flushAll g = Except.ok ()) :
    (terminateInactiveSessions (flushInactive g) false Res.fresh).trace =
      [⟨Action.jsonWrite 200 (Body.successMsg "Flush completed successfully"), false, false⟩] ∧
    terminateAllSessions (flushAll g) false Res.fresh =
      terminateInactiveSessions (flushInactive g) false Res.fresh := by
  simp [terminateInactiveSessions, terminateAllSessions, Res.fresh, resJson,
    extInterfere, h1, h2]

/-- C8 witness: the empty registry and a trivially succeeding flush. -/
theorem flush_handlers_uniform_success_witness :
    (terminateInactiveSessions ((fun _ => Except.ok ()) ([] : Registry)) false Res.fresh).trace =
      [⟨Action.jsonWrite 200 (Body.successMsg "Flush completed successfully"), false, false⟩] ∧
    terminateAllSessions ((fun _ => Except.ok ()) ([] : Registry)) false Res.fresh =
      terminateInactiveSessions ((fun _ => Except.ok ()) ([] : Registry)) false Res.fresh :=
  flush_handlers_uniform_success [] (fun _ => Except.ok ()) (fun _ => Except.ok ()) rfl rfl

/-- C5: on a fresh request the QR JSON endpoint responds, always with HTTP
status 200: `{success:false, message:"session_not_found"}` when the id is
not in the registry; `{success:true, qr}` carrying the stored QR string
when the session has a non-empty qr; and
`{success:false, message:"qr code not ready or already scanned"}` when the
session has no qr value. -/
theorem sessionQrCode_three_cases (g : Registry) (sid : String)
    (s : Session) (q : String) :
    (getSession g sid = none →
      (sessionQrCode g sid Res.fresh).trace =
        [⟨Action.jsonWrite 200 (Body.errorMsg "session_not_found"), false, false⟩]) ∧
    (getSession g sid = some s → s.qr = some q → q.isEmpty = false →
      (sessionQrCode g sid Res.fresh).trace =
        [⟨Action.jsonWrite 200 (Body.qrPayload q), false, false⟩]) ∧
    (getSession g sid = some s → s.qr = none →
      (sessionQrCode g sid Res.fresh).trace =
        [⟨Action.jsonWrite 200 (Body.errorMsg "qr code not ready or already scanned"), false, false⟩]) := by
  refine ⟨fun hg => ?_, fun hg hq hne => ?_, fun hg hq => ?_⟩
  · simp [sessionQrCode, Res.fresh, resJson, hg]
  · simp [sessionQrCode, Res.fresh, resJson, qrTruthy, qrText, hg, hq, hne]
  · simp [sessionQrCode, Res.fresh, resJson, qrTruthy, hg, hq]

/-- C5 witness: the three cases on concrete registries, with qr "XYZ" for
the present-and-ready case. -/
theorem sessionQrCode_three_cases_witness :
    (sessionQrCode [] "a" Res.fresh).trace =
      [⟨Action.jsonWrite 200 (Body.errorMsg "session_not_found"), false, false⟩] ∧
    (sessionQrCode [("a", ⟨some "XYZ"⟩)] "a" Res.fresh).trace =
      [⟨Action.jsonWrite 200 (Body.qrPayload "XYZ"), false, false⟩] ∧
    (sessionQrCode [("a", ⟨none⟩)] "a" Res.fresh).trace =
      [⟨Action.jsonWrite 200 (Body.errorMsg "qr code not ready or already scanned"), false, false⟩] :=
  ⟨(sessionQrCode_three_cases [] "a" ⟨none⟩ "XYZ").1 rfl,
   (sessionQrCode_three_cases [("a", ⟨some "XYZ"⟩)] "a" ⟨some "XYZ"⟩ "XYZ").2.1 rfl rfl rfl,
   (sessionQrCode_three_cases [("a", ⟨none⟩)] "a" ⟨none⟩ "XYZ").2.2 rfl rfl⟩

/-- C6: in every execution of sessionQrCodeImage in which the pipe raises
after the image/png headers were committed, no JSON body is written at
all, the only transport action after the header commit is ending the
stream, that end happens exactly once when the stream was not already
ended and not at all when it was, and never while `writableEnded` was
true. -/
theorem sessionQrCodeImage_error_after_headers (g : Registry) (sid : String)
    (s : Session) (m : String) (ended : Bool)
    (hg : getSession g sid = some s) (hq : qrTruthy s.qr = true) :
    (sessionQrCodeImage g sid (PipeOutcome.errAfterHeaders m ended) Res.fresh).trace =
      ⟨Action.headWrite 200 "image/png", false, false⟩ ::
        (if ended then [] else [⟨Action.endStream, true, false⟩]) ∧
    ((sessionQrCodeImage g sid (PipeOutcome.errAfterHeaders m ended) Res.fresh).trace.filter
      fun ev => isJson ev.act).length = 0 ∧
    ((sessionQrCodeImage g sid (PipeOutcome.errAfterHeaders m ended) Res.fresh).trace.filter
      fun ev => isEnd ev.act).length = (if ended then 0 else 1) ∧
    ((sessionQrCodeImage g sid (PipeOutcome.errAfterHeaders m ended) Res.fresh).trace.all
      fun ev => !isEnd ev.act || !ev.writableEndedBefore) = true := by
  cases ended <;>
    simp [sessionQrCodeImage, Res.fresh, writeHead, endRes, hg, hq, isJson, isEnd]

/-- C6 witness: a session with qr "Q" whose pipe errors with the stream
still open. -/
theorem sessionQrCodeImage_error_after_headers_witness :
    (sessionQrCodeImage [("b", ⟨some "Q"⟩)] "b"
        (PipeOutcome.errAfterHeaders "boom" false) Res.fresh).trace =
      [⟨Action.headWrite 200 "image/png", false, false⟩,
       ⟨Action.endStream, true, false⟩] :=
  ((sessionQrCodeImage_error_after_headers [("b", ⟨some "Q"⟩)] "b" ⟨some "Q"⟩
    "boom" false rfl rfl).1)

/-- C9 counterexample: the two controller versions are not observably
equivalent.  On the empty registry (unknown session id) the main file's
QR handlers respond with status 200 while the variant file's respond with
status 404, for both the JSON and the image endpoint. -/
theorem qr_handler_versions_differ :
    sessionQrCode [] "s1" Res.fresh ≠ sessionQrCodeVariant [] "s1" Res.fresh ∧
    sessionQrCodeImage [] "s1" PipeOutcome.pipeOk Res.fresh ≠
      sessionQrCodeImageVariant [] "s1" PipeOutcome.pipeOk Res.fresh := by
  decide

/-- C9 amended: for every session id present in the registry the two
controller versions produce identical final response states on a fresh
request (same status, body and stream actions, for the JSON and the image
handler alike, under every pipe outcome); for an unknown id the bodies
agree but the main file responds with status 200 where the variant
responds with status 404. -/
theorem qr_handler_versions_equivalent_except_notfound (g : Registry)
    (sid : String) (pipe : PipeOutcome) :
    ((getSession g sid).isSome = true →
      sessionQrCode g sid Res.fresh = sessionQrCodeVariant g sid Res.fresh ∧
      sessionQrCodeImage g sid pipe Res.fresh =
        sessionQrCodeImageVariant g sid pipe Res.fresh) ∧
    (getSession g sid = none →
      (sessionQrCode g sid Res.fresh).trace =
        [⟨Action.jsonWrite 200 (Body.errorMsg "session_not_found"), false, false⟩] ∧
      (sessionQrCodeVariant g sid Res.fresh).trace =
        [⟨Action.jsonWrite 404 (Body.errorMsg "session_not_found"), false, false⟩] ∧
      (sessionQrCodeImage g sid pipe Res.fresh).trace =
        [⟨Action.jsonWrite 200 (Body.errorMsg "session_not_found"), false, false⟩] ∧
      (sessionQrCodeImageVariant g sid pipe Res.fresh).trace =
        [⟨Action.jsonWrite 404 (Body.errorMsg "session_not_found"), false, false⟩]) := by
  constructor
  · intro h
    cases hg : getSession g sid with
    | none => rw [hg] at h; simp at h
    | some s =>
      exact ⟨by simp [sessionQrCode, sessionQrCodeVariant, Res.fresh, hg],
             by simp [sessionQrCodeImage, sessionQrCodeImageVariant, Res.fresh, hg]⟩
  · intro hg
    simp [sessionQrCode, sessionQrCodeVariant, sessionQrCodeImage,
      sessionQrCodeImageVariant, Res.fresh, resJson, hg]

/-- C9-amended witness: a present session with a ready qr, and the
unknown-id divergence. -/
theorem qr_handler_versions_equivalent_except_notfound_witness :
    sessionQrCode [("a", ⟨some "XYZ"⟩)] "a" Res.fresh =
      sessionQrCodeVariant [("a", ⟨some "XYZ"⟩)] "a" Res.fresh ∧
    (sessionQrCode [] "a" Res.fresh).trace =
      [⟨Action.jsonWrite 200 (Body.errorMsg "session_not_found"), false, false⟩] :=
  ⟨((qr_handler_versions_equivalent_except_notfound [("a", ⟨some "XYZ"⟩)] "a"
      PipeOutcome.pipeOk).1 rfl).1,
   ((qr_handler_versions_equivalent_except_notfound [] "a"
      PipeOutcome.pipeOk).2 rfl).1⟩

/-- C10: a session whose qr field holds the empty string is treated by
both QR handlers exactly like a session with no qr at all: the truthiness
test fails, the response is the not-ready payload with status 200, and it
is never `{success:true, qr:""}` or an image response. -/
theorem empty_qr_treated_as_absent (g : Registry) (sid : String)
    (s : Session) (pipe : PipeOutcome)
    (hg : getSession g sid = some s) (hq : s.qr = some "") :
    (sessionQrCode g sid Res.fresh).trace =
      [⟨Action.jsonWrite 200 (Body.errorMsg "qr code not ready or already scanned"), false, false⟩] ∧
    (sessionQrCodeImage g sid pipe Res.fresh).trace =
      [⟨Action.jsonWrite 200 (Body.errorMsg "qr code not ready or already scanned"), false, false⟩] ∧
    sessionQrCode g sid Res.fresh = sessionQrCode [(sid, ⟨none⟩)] sid Res.fresh ∧
    sessionQrCodeImage g sid pipe Res.fresh =
      sessionQrCodeImage [(sid, ⟨none⟩)] sid pipe Res.fresh := by
  have hone : getSession [(sid, (⟨none⟩ : Session))] sid = some ⟨none⟩ := by
    simp [getSession]
  have he : "".isEmpty = true := rfl
  simp [sessionQrCode, sessionQrCodeImage, Res.fresh, resJson,
    qrTruthy, hg, hq, hone, he]

/-- C10 witness: a concrete session whose qr is the empty string. -/
theorem empty_qr_treated_as_absent_witness :
    (sessionQrCode [("c", ⟨some ""⟩)] "c" Res.fresh).trace =
      [⟨Action.jsonWrite 200 (Body.errorMsg "qr code not ready or already scanned"), false, false⟩] ∧
    (sessionQrCodeImage [("c", ⟨some ""⟩)] "c" PipeOutcome.pipeOk Res.fresh).trace =
      [⟨Action.jsonWrite 200 (Body.errorMsg "qr code not ready or already scanned"), false, false⟩] :=
  ⟨(empty_qr_treated_as_absent [("c", ⟨some ""⟩)] "c" ⟨some ""⟩
      PipeOutcome.pipeOk rfl rfl).1,
   (empty_qr_treated_as_absent [("c", ⟨some ""⟩)] "c" ⟨some ""⟩
      PipeOutcome.pipeOk rfl rfl).2.1⟩

end SessionController
